import Mathlib

/-!
Verification development for the BAC-BO-BOT repository (src/main.py).

The Python source is shallowly embedded: each relevant function is
translated into an executable Lean definition over explicit state, with
Python exceptions modelled by `Except`/`Option` and the library random
generator modelled by a deterministic stream of the seed.  Machine floats
that only ever hold small decimal constants (backoff seconds, displayed
percentages) are modelled by `ℚ`.
-/

namespace BacBo

/-- Color is one of the three Bac Bo round outcomes used throughout
`main.py`: the emojis `🔴` (vermelho), `🔵` (azul), `🟠` (laranja). -/
inductive Color where
  | vermelho
  | azul
  | laranja
deriving DecidableEq, Repr

/-- Label is one of the six fixed bet categories from the `estrategias`
list in `estrategia_alta_assertividade` (src/main.py lines 504-511). -/
inductive Label where
  | laranjaAzul       -- '🟠+🔵 Laranja e Azul'
  | laranjaVermelho   -- '🟠+🔴 Laranja e Vermelho'
  | laranja           -- '🟠 Laranja'
  | azul              -- '🔵 Azul'
  | vermelho          -- '🔴 Vermelho'
  | azulVermelho      -- '🔵+🔴 Azul e Vermelho'
deriving DecidableEq, Repr

/-- resultadoMapa translates the `resultado_mapa` dictionary
(src/main.py lines 277-289): given the real outcome color and the issued
bet label, says whether the bet counts as a hit.  A missing key yields
`False` via `.get(palpite, False)`; all six labels are present, so the
table below is total. -/
def resultadoMapa (resultado : Color) (palpite : Label) : Bool :=
  match resultado, palpite with
  | .azul, .azul => true
  | .azul, .laranja => false
  | .azul, .vermelho => false
  | .azul, .laranjaAzul => true
  | .azul, .laranjaVermelho => false
  | .azul, .azulVermelho => true
  | .vermelho, .azul => false
  | .vermelho, .laranja => false
  | .vermelho, .vermelho => true
  | .vermelho, .laranjaAzul => false
  | .vermelho, .laranjaVermelho => true
  | .vermelho, .azulVermelho => true
  | .laranja, .azul => false
  | .laranja, .laranja => true
  | .laranja, .vermelho => false
  | .laranja, .laranjaAzul => true
  | .laranja, .laranjaVermelho => true
  | .laranja, .azulVermelho => false

/-! ## DeliveryChannel: `enviar_mensagem_resiliente` (src/main.py 174-246)

Python strings are modelled as `List Char` obtained from Lean string
literals via `String.data`; the substring membership test (`in`), the
`str.split` indexing and `int()` parsing used by the source are translated
below. -/

/-- occurs models the Python substring test `pat in s` (for non-empty
`pat`, the only use in the source). -/
def occurs (pat : List Char) : List Char → Bool
  | [] => pat.isEmpty
  | c :: t => pat.isPrefixOf (c :: t) || occurs pat t

/-- afterFirst returns the remainder of `s` after the first occurrence of
`pat`, or `none` when `pat` does not occur (the `IndexError` case of
`error_msg.split("retry after ")[1]`). -/
def afterFirst (pat : List Char) : List Char → Option (List Char)
  | [] => none
  | c :: t =>
    if pat.isPrefixOf (c :: t) then some (List.drop pat.length (c :: t))
    else afterFirst pat t

/-- upToNext truncates `s` at the next occurrence of `pat`, mirroring that
`str.split(pat)[1]` is the segment between the first and second
occurrence. -/
def upToNext (pat : List Char) : List Char → List Char
  | [] => []
  | c :: t => if pat.isPrefixOf (c :: t) then [] else c :: upToNext pat t

/-- splitSecond models `s.split(pat)[1]`: `none` is the `IndexError`. -/
def splitSecond (pat s : List Char) : Option (List Char) :=
  (afterFirst pat s).map (upToNext pat)

/-- trimWs drops the surrounding whitespace that Python `int(s)`
tolerates. -/
def trimWs (cs : List Char) : List Char :=
  ((cs.dropWhile Char.isWhitespace).reverse.dropWhile Char.isWhitespace).reverse

/-- charsToNat models Python `int(s)` on the extracted segment: after
stripping surrounding whitespace it succeeds exactly on non-empty
all-digit strings (`none` is the `ValueError`; a sign prefix, which
Telegram retry-after hints never carry, is not modelled). -/
def charsToNat (cs : List Char) : Option Nat :=
  let ds := trimWs cs
  if ds ≠ [] ∧ ds.all Char.isDigit then
    some (ds.foldl (fun a c => a * 10 + (c.toNat - 48)) 0)
  else none

/-- rateLimitPat is the marker tested at src/main.py line 221. -/
def rateLimitPat : List Char := "Too Many Requests: retry after".data

/-- chatNotFoundPat is the marker tested at src/main.py line 234. -/
def chatNotFoundPat : List Char := "chat not found".data

/-- isRateLimit models `"Too Many Requests: retry after" in error_msg`. -/
def isRateLimit (msg : String) : Bool :=
  occurs rateLimitPat msg.data

/-- isChatNotFound models `"chat not found" in error_msg.lower()`. -/
def isChatNotFound (msg : String) : Bool :=
  occurs chatNotFoundPat (msg.data.map Char.toLower)

/-- parseRetryAfter models
`int(error_msg.split("retry after ")[1])` (src/main.py line 224):
`none` covers both the `IndexError` and the `ValueError` the source
catches at line 227. -/
def parseRetryAfter (msg : String) : Option Nat :=
  match splitSecond "retry after ".data msg.data with
  | none => none
  | some cs => charsToNat cs

/-- SendAttempt is the outcome of one `bot.send_message` call: success, or
an exception whose text is `str(e)`. -/
inductive SendAttempt where
  | ok
  | fail (msg : String)
deriving DecidableEq, Repr

/-- Ev records the externally visible actions of the send helper: an
attempted `bot.send_message(chat, ...)` call (with its 0-based attempt
index for that chat) and a `time.sleep` of a given number of seconds. -/
inductive Ev where
  | trySend (chat : Int) (attempt : Nat)
  | sleep (secs : ℚ)
deriving DecidableEq, Repr

/-- SendResult is the observable outcome of `enviar_mensagem_resiliente`:
the ordered trace of attempts and sleeps, the chat the message was
ultimately bound to (the `sent_msg` chat), and the `success` flag. -/
structure SendResult where
  trace : List Ev
  sentTo : Option Int
  success : Bool
deriving DecidableEq, Repr

/-- attemptsLoop translates the inner `for attempt in range(retry_count)`
loop of `enviar_mensagem_resiliente` (src/main.py lines 200-241) for one
chat.  `behav a` is the result of the send call on attempt `a`;
`remaining` counts the attempts left; `backoff` is the current backoff in
seconds.  On a rate-limit error with a parseable hint `n` the source
sleeps `n + 1` and leaves `backoff` unchanged; on an unparseable
rate-limit hint it sleeps `backoff` then doubles it capped at 30; on a
chat-not-found error it breaks out with no sleep; on any other error it
sleeps `backoff` then multiplies it by 1.5 capped at 15. -/
def attemptsLoop (behav : Nat → SendAttempt) (chat : Int) (attempt : Nat)
    (remaining : Nat) (backoff : ℚ) : List Ev × Bool :=
  match remaining with
  | 0 => ([], false)
  | r + 1 =>
    match behav attempt with
    | .ok => ([.trySend chat attempt], true)
    | .fail msg =>
      if isRateLimit msg then
        match parseRetryAfter msg with
        | some n =>
          let rest := attemptsLoop behav chat (attempt + 1) r backoff
          (.trySend chat attempt :: .sleep ((n : ℚ) + 1) :: rest.1, rest.2)
        | none =>
          let rest := attemptsLoop behav chat (attempt + 1) r (min (backoff * 2) 30)
          (.trySend chat attempt :: .sleep backoff :: rest.1, rest.2)
      else if isChatNotFound msg then
        ([.trySend chat attempt], false)
      else
        let rest := attemptsLoop behav chat (attempt + 1) r (min (backoff * (3 / 2)) 15)
        (.trySend chat attempt :: .sleep backoff :: rest.1, rest.2)

/-- enviarLoop translates the outer `for chat_id in chat_ids` loop
(src/main.py lines 195-241): targets are tried in order, each with a fresh
`backoff = timeout`, stopping at the first success.  `behav i a` is the
result of attempt `a` on the `i`-th target. -/
def enviarLoop (behav : Nat → Nat → SendAttempt) (retry : Nat) (timeout : ℚ) :
    Nat → List Int → SendResult
  | _, [] => ⟨[], none, false⟩
  | idx, c :: cs =>
    let res := attemptsLoop (behav idx) c 0 retry timeout
    if res.2 then ⟨res.1, some c, true⟩
    else
      let rest := enviarLoop behav retry timeout (idx + 1) cs
      ⟨res.1 ++ rest.trace, rest.sentTo, rest.success⟩

/-- enviarMensagemResiliente is the entry point of the send helper with the
source's call shape (`retry_count=3`, `timeout=2` are its defaults). -/
def enviarMensagemResiliente (behav : Nat → Nat → SendAttempt)
    (chats : List Int) (retry : Nat) (timeout : ℚ) : SendResult :=
  enviarLoop behav retry timeout 0 chats

/-- attemptsLoop_ok: unfolding equation for a successful attempt. -/
theorem attemptsLoop_ok (behav : Nat → SendAttempt) (chat : Int)
    (a r : Nat) (b : ℚ) (hb : behav a = .ok) :
    attemptsLoop behav chat a (r + 1) b = ([.trySend chat a], true) := by
  rw [attemptsLoop.eq_def]
  simp only [hb]

/-- attemptsLoop_rl: unfolding equation for a rate-limit error with a
parseable hint: sleep the hint plus one, keep the backoff. -/
theorem attemptsLoop_rl (behav : Nat → SendAttempt) (chat : Int)
    (a r : Nat) (b : ℚ) (msg : String) (n : Nat)
    (hb : behav a = .fail msg) (hrl : isRateLimit msg = true)
    (hn : parseRetryAfter msg = some n) :
    attemptsLoop behav chat a (r + 1) b =
      (.trySend chat a :: .sleep ((n : ℚ) + 1) ::
          (attemptsLoop behav chat (a + 1) r b).1,
        (attemptsLoop behav chat (a + 1) r b).2) := by
  rw [attemptsLoop.eq_def]
  simp only [hb, hrl, hn, if_true]

/-- attemptsLoop_cnf: unfolding equation for a chat-not-found error: break
out with no sleep and no retry. -/
theorem attemptsLoop_cnf (behav : Nat → SendAttempt) (chat : Int)
    (a r : Nat) (b : ℚ) (msg : String)
    (hb : behav a = .fail msg) (hrl : isRateLimit msg = false)
    (hcnf : isChatNotFound msg = true) :
    attemptsLoop behav chat a (r + 1) b = ([.trySend chat a], false) := by
  rw [attemptsLoop.eq_def]
  simp only [hb, hrl, hcnf, Bool.false_eq_true, if_false, if_true]

/-- attemptsLoop_head: as long as at least one attempt remains, the trace of
the per-target loop starts with the send attempt itself. -/
theorem attemptsLoop_head (behav : Nat → SendAttempt) (chat : Int)
    (a r : Nat) (b : ℚ) :
    ∃ rest, (attemptsLoop behav chat a (r + 1) b).1 = .trySend chat a :: rest := by
  rw [attemptsLoop.eq_def]
  cases hb : behav a with
  | ok => exact ⟨[], rfl⟩
  | fail msg =>
    by_cases hrl : isRateLimit msg
    · simp only [hrl, if_true]
      cases hn : parseRetryAfter msg with
      | none => exact ⟨_, rfl⟩
      | some n => exact ⟨_, rfl⟩
    · by_cases hcnf : isChatNotFound msg
      · simp only [hrl, hcnf, Bool.false_eq_true, if_false, if_true]
        exact ⟨[], rfl⟩
      · simp only [hrl, hcnf, Bool.false_eq_true, if_false]
        exact ⟨_, rfl⟩

/-- C4: whenever a send attempt fails with an error text embedding a
parseable rate-limit hint `retry after n`, the helper sleeps exactly
`n + 1` seconds (hence at least `n`) and then retries the same target at
the next attempt index with the backoff value unchanged — the
multiplicative backoff update is not applied on this branch. -/
theorem retry_after_hint_sleeps_n_plus_one
    (behav : Nat → SendAttempt) (chat : Int) (a r : Nat) (b : ℚ)
    (msg : String) (n : Nat)
    (hfail : behav a = .fail msg)
    (hrl : isRateLimit msg = true)
    (hn : parseRetryAfter msg = some n)
    (hr : 0 < r) :
    ∃ rest,
      (attemptsLoop behav chat a (r + 1) b).1 =
        .trySend chat a :: .sleep ((n : ℚ) + 1) :: .trySend chat (a + 1) :: rest ∧
      (attemptsLoop behav chat a (r + 1) b).2 =
        (attemptsLoop behav chat (a + 1) r b).2 ∧
      (n : ℚ) ≤ (n : ℚ) + 1 := by
  obtain ⟨r', rfl⟩ : ∃ r', r = r' + 1 := ⟨r - 1, by omega⟩
  obtain ⟨rest, hrest⟩ := attemptsLoop_head behav chat (a + 1) r' b
  rw [attemptsLoop_rl behav chat a (r' + 1) b msg n hfail hrl hn]
  exact ⟨rest, by rw [hrest], rfl, by linarith⟩

/-- C4 witness: a concrete rate-limited target; with hint `retry after 3`
the helper sleeps 4 seconds between attempt 0 and attempt 1 on chat 7. -/
theorem retry_after_hint_sleeps_n_plus_one_witness :
    ∃ rest,
      (attemptsLoop (fun _ => .fail "Too Many Requests: retry after 3")
          7 0 (1 + 1) 2).1 =
        .trySend 7 0 :: .sleep ((3 : ℚ) + 1) :: .trySend 7 (0 + 1) :: rest ∧
      (attemptsLoop (fun _ => .fail "Too Many Requests: retry after 3")
          7 0 (1 + 1) 2).2 =
        (attemptsLoop (fun _ => .fail "Too Many Requests: retry after 3")
          7 (0 + 1) 1 2).2 ∧
      (3 : ℚ) ≤ (3 : ℚ) + 1 :=
  retry_after_hint_sleeps_n_plus_one
    (fun _ => .fail "Too Many Requests: retry after 3") 7 0 1 2
    "Too Many Requests: retry after 3" 3 rfl (by decide) (by decide)
    (by decide)

/-- C5: when every attempt on the first target fails with a chat-not-found
class error (and not a rate-limit one) and the second target succeeds on
its first attempt, the helper returns success bound to the second target,
having spent exactly one attempt, no retry and no sleep on the first
target: the whole trace is the single failed attempt on target one
followed by the successful attempt on target two. -/
theorem chat_not_found_advances_without_retry
    (behav : Nat → Nat → SendAttempt) (c1 c2 : Int) (cs : List Int)
    (retry : Nat) (t : ℚ) (msgs : Nat → String)
    (hall : ∀ a, behav 0 a = .fail (msgs a))
    (hnrl : isRateLimit (msgs 0) = false)
    (hcnf : isChatNotFound (msgs 0) = true)
    (h2 : behav 1 0 = .ok)
    (hr : 0 < retry) :
    enviarMensagemResiliente behav (c1 :: c2 :: cs) retry t =
      ⟨[.trySend c1 0, .trySend c2 0], some c2, true⟩ := by
  obtain ⟨r', rfl⟩ : ∃ r', retry = r' + 1 := ⟨retry - 1, by omega⟩
  have h1 : attemptsLoop (behav 0) c1 0 (r' + 1) t = ([.trySend c1 0], false) :=
    attemptsLoop_cnf (behav 0) c1 0 r' t (msgs 0) (hall 0) hnrl hcnf
  have h2ok : attemptsLoop (behav 1) c2 0 (r' + 1) t = ([.trySend c2 0], true) :=
    attemptsLoop_ok (behav 1) c2 0 r' t h2
  simp [enviarMensagemResiliente, enviarLoop, h1, h2ok]

/-- C5 witness: a concrete run over targets 11 and 22 where target 11
always raises chat-not-found and target 22 accepts at once. -/
theorem chat_not_found_advances_without_retry_witness :
    enviarMensagemResiliente
      (fun i _ => if i = 0 then .fail "Bad Request: chat not found" else .ok)
      (11 :: 22 :: []) 3 2 =
      ⟨[.trySend 11 0, .trySend 22 0], some 22, true⟩ :=
  chat_not_found_advances_without_retry
    (fun i _ => if i = 0 then .fail "Bad Request: chat not found" else .ok)
    11 22 [] 3 2 (fun _ => "Bad Request: chat not found")
    (fun _ => rfl) (by decide) (by decide) rfl (by decide)

/-! ## ResultFeed: `atualizar_resultados_elephant` (src/main.py 331-476)

The three acquisition tiers (JSON API, HTML scraping, seeded simulation)
are modelled over an explicit environment describing what the network
returned; every Python `raise` becomes an `Except.error` and the
enclosing `try/except` blocks become the corresponding handlers. -/

/-- colorMapping translates `COLOR_MAPPING.get(result_color, "🟠")`
(src/main.py lines 324-328 and 364): red and blue map to their emojis and
anything else, orange included, defaults to `🟠`. -/
def colorMapping (s : String) : Color :=
  if s = "red" then .vermelho
  else if s = "blue" then .azul
  else .laranja

/-- classifyItem translates the scraping classifier (src/main.py lines
396-402): an item is red if `result-red` is among its CSS classes, else
blue if `result-blue` is, else orange. -/
def classifyItem (classes : List String) : Color :=
  if classes.contains "result-red" then .vermelho
  else if classes.contains "result-blue" then .azul
  else .laranja

/-- ApiResp describes what the JSON tier observed: a network/JSON-parse
exception, a non-200 status (raised before `data` is bound), a 200 with
unparseable JSON, or a parsed round list whose entries are the
`round_data.get('result', 'orange')` values (`none` = missing key). -/
inductive ApiResp where
  | netError
  | badStatus (code : Nat)
  | badJson
  | rounds (rs : List (Option String))
deriving DecidableEq, Repr

/-- PageResp describes what the scraping tier observed: a network
exception, a non-200 status, a 200 page without the results container, or
the container's result items given by their CSS class lists. -/
inductive PageResp where
  | netError
  | badStatus (code : Nat)
  | noContainer
  | items (cls : List (List String))
deriving DecidableEq, Repr

/-- FeedEnv is the environment of one refresh call: the two network
responses and `int(time.time())` at the moment of the call. -/
structure FeedEnv where
  api : ApiResp
  page : PageResp
  now : Nat

/-- lcg is a deterministic 64-bit linear congruential step standing in for
CPython's seeded Mersenne Twister: the library guarantees that after
`random.seed(k)` the draw sequence is a pure function of `k`, which is
the only property the source relies on. -/
def lcg (s : Nat) : Nat :=
  (6364136223846793005 * s + 1442695040888963407) % 2 ^ 64

/-- rngDraw is the `i`-th draw of the generator seeded with `seed`. -/
def rngDraw (seed : Nat) : Nat → Nat
  | 0 => lcg (seed + 2 ^ 32)
  | i + 1 => lcg (rngDraw seed i)

/-- weightedColor models
`random.choices(['🔴','🔵','🟠'], weights=[0.35, 0.35, 0.30])`
(src/main.py lines 422-430): a draw reduced modulo 100 falls to vermelho
below 35, azul below 70 and laranja otherwise. -/
def weightedColor (draw : Nat) : Color :=
  if draw % 100 < 35 then .vermelho
  else if draw % 100 < 70 then .azul
  else .laranja

/-- simulacaoFallback models the third tier (src/main.py lines 420-437):
`random.seed(int(time.time()) // 60)`, one weighted draw for the current
outcome, then ten further weighted draws for the simulated window. -/
def simulacaoFallback (now : Nat) : Color × List Color :=
  (weightedColor (rngDraw (now / 60) 0),
    (List.range 10).map fun i => weightedColor (rngDraw (now / 60) (i + 1)))

/-- tier1 models the JSON branch (src/main.py lines 351-374): on a 200
response the first ten rounds are mapped to colors; an empty list, a bad
status or any exception is a `ValueError` caught by the tier's handler.
On success the current outcome is `recent_results[0]`. -/
def tier1 (api : ApiResp) : Except String (Color × List Color) :=
  match api with
  | .netError => .error "request exception"
  | .badStatus _ => .error "API retornou codigo de status"
  | .badJson => .error "json exception"
  | .rounds rs =>
    match (rs.take 10).map (fun r => colorMapping (r.getD "orange")) with
    | [] => .error "sem resultados recentes da API"
    | h :: t => .ok (h, h :: t)

/-- tier2 models the scraping branch (src/main.py lines 380-415): on a 200
page with a results container the first ten items are classified by CSS
class; an empty item list, a missing container, a bad status or an
exception is caught by the tier's handler. -/
def tier2 (page : PageResp) : Except String (Color × List Color) :=
  match page with
  | .netError => .error "request exception"
  | .badStatus _ => .error "Pagina retornou codigo de status"
  | .noContainer => .error "Container de resultados nao encontrado"
  | .items cls =>
    match (cls.take 10).map classifyItem with
    | [] => .error "sem resultados recentes via scraping"
    | h :: t => .ok (h, h :: t)

/-- fetchTiers chains the three tiers in priority order; the simulation
tier always produces a value. -/
def fetchTiers (env : FeedEnv) : Color × List Color :=
  match tier1 env.api with
  | .ok p => p
  | .error _ =>
    match tier2 env.page with
    | .ok p => p
    | .error _ => simulacaoFallback env.now

/-- Fonte is the `'fonte'` tag stored at src/main.py line 466. -/
inductive Fonte where
  | api
  | webScraping
  | simulacao
deriving DecidableEq, Repr

/-- dataBound says whether the local `data` ended up bound, which requires
a 200 API response whose JSON parsed (src/main.py line 357). -/
def dataBound : ApiResp → Bool
  | .rounds _ => true
  | _ => false

/-- soupBound says whether the local `soup` ended up bound, which requires
a 200 page response (src/main.py line 385). -/
def soupBound : PageResp → Bool
  | .noContainer => true
  | .items _ => true
  | _ => false

/-- fonteOf translates the `'data' in locals() / 'soup' in locals()`
chain of src/main.py line 466 (note it can say `api` even when the value
came from a later tier, exactly as the source can). -/
def fonteOf (env : FeedEnv) : Fonte :=
  if dataBound env.api then .api
  else if soupBound env.page then .webScraping
  else .simulacao

/-- Resultados is the `resultados_anteriores` dictionary (src/main.py
lines 293-298 and 459-467).  The three per-color frequencies stand for the
`frequencia` sub-dictionary; `resultadoAtual`, `timestampRodada` and
`fonte` are `none` in the initial literal, which lacks those keys; the
round timestamp string is modelled by the clock value it formats. -/
structure Resultados where
  ultimos10 : List Color
  freqVermelho : ℚ
  freqAzul : ℚ
  freqLaranja : ℚ
  tendencia : Color
  ultimaAtualizacao : Nat
  resultadoAtual : Option Color
  timestampRodada : Option Nat
  fonte : Option Fonte
deriving DecidableEq, Repr

/-- tendenciaOf translates
`max(contador.keys(), key=lambda k: contador[k])` (src/main.py line 453)
with the dictionary's insertion order `🔴, 🔵, 🟠`: Python `max` keeps the
earlier key on ties, so laranja wins only strictly, azul beats vermelho
only strictly. -/
def tendenciaOf (cr cb co : Nat) : Color :=
  if cb > cr then (if co > cb then .laranja else .azul)
  else (if co > cr then .laranja else .vermelho)

/-- truncate10 translates `if len(ultimos) > 10: ultimos = ultimos[:10]`
(src/main.py lines 440-442). -/
def truncate10 (recent : List Color) : List Color :=
  if recent.length > 10 then recent.take 10 else recent

/-- montarResultados translates the common tail (src/main.py lines
439-467): truncate to ten results, count, divide by the window length
(the division raises `ZeroDivisionError` on an empty window, modelled as
the error case), compute the trend and assemble the new dictionary. -/
def montarResultados (now : Nat) (fonte : Fonte) (novo : Color)
    (recent : List Color) : Except String Resultados :=
  if (truncate10 recent).length = 0 then .error "ZeroDivisionError"
  else
    .ok
      { ultimos10 := truncate10 recent
        freqVermelho := ((truncate10 recent).count .vermelho : ℚ) /
          ((truncate10 recent).length : ℚ)
        freqAzul := ((truncate10 recent).count .azul : ℚ) /
          ((truncate10 recent).length : ℚ)
        freqLaranja := ((truncate10 recent).count .laranja : ℚ) /
          ((truncate10 recent).length : ℚ)
        tendencia := tendenciaOf ((truncate10 recent).count .vermelho)
          ((truncate10 recent).count .azul) ((truncate10 recent).count .laranja)
        ultimaAtualizacao := now
        resultadoAtual := some novo
        timestampRodada := some now
        fonte := some fonte }

/-- corpoAtualizar is the body of the outer `try` (src/main.py lines
347-470): chain the tiers, then build the new dictionary. -/
def corpoAtualizar (env : FeedEnv) : Except String Resultados :=
  montarResultados env.now (fonteOf env) (fetchTiers env).1 (fetchTiers env).2

/-- atualizarResultados is the whole function (src/main.py 331-476): an
early cache return inside the 10-second TTL, then the body, whose every
error is swallowed by the outer handler that keeps the previous results
(src/main.py lines 472-474). -/
def atualizarResultados (env : FeedEnv) (cache : Resultados) : Resultados :=
  if env.now - cache.ultimaAtualizacao < 10 then cache
  else
    match corpoAtualizar env with
    | .ok s => s
    | .error _ => cache

/-- isOkB mirrors whether an `Except` carries a value. -/
def isOkB {α : Type} (e : Except String α) : Bool :=
  match e with
  | .ok _ => true
  | .error _ => false

/-- decEqExcept lets concrete runs of the embedded fallible functions be
checked by `decide`. -/
instance decEqExcept {ε α : Type} [DecidableEq ε] [DecidableEq α] :
    DecidableEq (Except ε α) := fun x y =>
  match x, y with
  | .ok a, .ok b =>
    if h : a = b then isTrue (congrArg Except.ok h)
    else isFalse (fun hh => h (Except.ok.inj hh))
  | .error a, .error b =>
    if h : a = b then isTrue (congrArg Except.error h)
    else isFalse (fun hh => h (Except.error.inj hh))
  | .ok _, .error _ => isFalse (fun hh => Except.noConfusion hh)
  | .error _, .ok _ => isFalse (fun hh => Except.noConfusion hh)

/-- sim_snd_length: the simulated window always holds ten outcomes. -/
theorem sim_snd_length (now : Nat) : (simulacaoFallback now).2.length = 10 := by
  simp [simulacaoFallback]

/-- sim_deterministic: the simulation is a pure function of the minute. -/
theorem sim_deterministic (t1 t2 : Nat) (h : t1 / 60 = t2 / 60) :
    simulacaoFallback t1 = simulacaoFallback t2 := by
  simp only [simulacaoFallback, h]

/-- tier1_ok_snd_ne_nil: a successful JSON tier yields a non-empty list. -/
theorem tier1_ok_snd_ne_nil (api : ApiResp) (p : Color × List Color)
    (h : tier1 api = .ok p) : p.2 ≠ [] := by
  cases api with
  | netError => exact absurd h (by simp [tier1])
  | badStatus c => exact absurd h (by simp [tier1])
  | badJson => exact absurd h (by simp [tier1])
  | rounds rs =>
    simp only [tier1] at h
    split at h
    · exact absurd h (by simp)
    · cases h
      simp

/-- tier2_ok_snd_ne_nil: a successful scraping tier yields a non-empty
list. -/
theorem tier2_ok_snd_ne_nil (page : PageResp) (p : Color × List Color)
    (h : tier2 page = .ok p) : p.2 ≠ [] := by
  cases page with
  | netError => exact absurd h (by simp [tier2])
  | badStatus c => exact absurd h (by simp [tier2])
  | noContainer => exact absurd h (by simp [tier2])
  | items cls =>
    simp only [tier2] at h
    split at h
    · exact absurd h (by simp)
    · cases h
      simp

/-- fetchTiers_snd_ne_nil: whichever tier fires, the recent list is
non-empty. -/
theorem fetchTiers_snd_ne_nil (env : FeedEnv) : (fetchTiers env).2 ≠ [] := by
  unfold fetchTiers
  cases h1 : tier1 env.api with
  | ok p => exact tier1_ok_snd_ne_nil env.api p h1
  | error e1 =>
    cases h2 : tier2 env.page with
    | ok p => exact tier2_ok_snd_ne_nil env.page p h2
    | error e2 =>
      have := sim_snd_length env.now
      intro hnil
      rw [hnil] at this
      simp at this

/-- fetchTiers_sim: when both network tiers fail, the value comes from the
seeded simulation. -/
theorem fetchTiers_sim (env : FeedEnv)
    (hA : isOkB (tier1 env.api) = false)
    (hP : isOkB (tier2 env.page) = false) :
    fetchTiers env = simulacaoFallback env.now := by
  unfold fetchTiers
  cases h1 : tier1 env.api with
  | ok p => rw [h1] at hA; simp [isOkB] at hA
  | error e1 =>
    cases h2 : tier2 env.page with
    | ok p => rw [h2] at hP; simp [isOkB] at hP
    | error e2 => rfl

/-- truncate10_length_pos: truncation keeps a non-empty window
non-empty. -/
theorem truncate10_length_pos (recent : List Color) (h : recent ≠ []) :
    0 < (truncate10 recent).length := by
  unfold truncate10
  split
  · rw [List.length_take]
    omega
  · cases recent with
    | nil => exact absurd rfl h
    | cons a t => simp

/-- truncate10_length_le: the stored window never exceeds ten entries. -/
theorem truncate10_length_le (recent : List Color) :
    (truncate10 recent).length ≤ 10 := by
  unfold truncate10
  split
  · rw [List.length_take]
    omega
  · omega

/-- corpo_ok: the refresh body always produces a dictionary (in
particular the `ZeroDivisionError` guard is unreachable). -/
theorem corpo_ok (env : FeedEnv) : ∃ s, corpoAtualizar env = .ok s := by
  have hpos := truncate10_length_pos (fetchTiers env).2 (fetchTiers_snd_ne_nil env)
  unfold corpoAtualizar montarResultados
  rw [if_neg (by omega)]
  exact ⟨_, rfl⟩

/-- corpo_fields: the dictionary the body builds stores the fetched
current outcome and the truncated fetched window. -/
theorem corpo_fields (env : FeedEnv) (s : Resultados)
    (h : corpoAtualizar env = .ok s) :
    s.resultadoAtual = some (fetchTiers env).1 ∧
      s.ultimos10 = truncate10 (fetchTiers env).2 := by
  have hpos := truncate10_length_pos (fetchTiers env).2 (fetchTiers_snd_ne_nil env)
  unfold corpoAtualizar montarResultados at h
  rw [if_neg (by omega)] at h
  cases h
  exact ⟨rfl, rfl⟩

/-- count_partition: every outcome is one of the three colors, so the
three counts partition the window. -/
theorem count_partition (l : List Color) :
    l.count .vermelho + l.count .azul + l.count .laranja = l.length := by
  induction l with
  | nil => rfl
  | cons c t ih => cases c <;> simp [List.count_cons] <;> omega

/-- C6: when both the JSON tier and the scraping tier fail and the cache
TTL has lapsed, two refresh calls within the same UTC minute store the
identical simulated current outcome and the identical simulated
ten-outcome window. -/
theorem sim_fallback_same_minute_identical
    (env1 env2 : FeedEnv) (cache1 cache2 : Resultados)
    (hT1 : ¬ env1.now - cache1.ultimaAtualizacao < 10)
    (hT2 : ¬ env2.now - cache2.ultimaAtualizacao < 10)
    (hA1 : isOkB (tier1 env1.api) = false)
    (hP1 : isOkB (tier2 env1.page) = false)
    (hA2 : isOkB (tier1 env2.api) = false)
    (hP2 : isOkB (tier2 env2.page) = false)
    (hmin : env1.now / 60 = env2.now / 60) :
    (atualizarResultados env1 cache1).resultadoAtual =
      (atualizarResultados env2 cache2).resultadoAtual ∧
    (atualizarResultados env1 cache1).ultimos10 =
      (atualizarResultados env2 cache2).ultimos10 := by
  obtain ⟨s1, hs1⟩ := corpo_ok env1
  obtain ⟨s2, hs2⟩ := corpo_ok env2
  obtain ⟨ha1, hu1⟩ := corpo_fields env1 s1 hs1
  obtain ⟨ha2, hu2⟩ := corpo_fields env2 s2 hs2
  have e1 : atualizarResultados env1 cache1 = s1 := by
    unfold atualizarResultados
    rw [if_neg hT1, hs1]
  have e2 : atualizarResultados env2 cache2 = s2 := by
    unfold atualizarResultados
    rw [if_neg hT2, hs2]
  have hsim : simulacaoFallback env1.now = simulacaoFallback env2.now :=
    sim_deterministic env1.now env2.now hmin
  rw [e1, e2, ha1, ha2, hu1, hu2, fetchTiers_sim env1 hA1 hP1,
    fetchTiers_sim env2 hA2 hP2, hsim]
  exact ⟨rfl, rfl⟩

/-- C6 witness: two calls at 120s and 179s after the epoch (the same
minute) with all network tiers down and lapsed caches agree. -/
theorem sim_fallback_same_minute_identical_witness :
    (atualizarResultados ⟨.netError, .netError, 120⟩
        ⟨[], 0, 0, 0, .vermelho, 0, none, none, none⟩).resultadoAtual =
      (atualizarResultados ⟨.badStatus 500, .badStatus 404, 179⟩
        ⟨[], 0, 0, 0, .azul, 7, none, none, none⟩).resultadoAtual ∧
    (atualizarResultados ⟨.netError, .netError, 120⟩
        ⟨[], 0, 0, 0, .vermelho, 0, none, none, none⟩).ultimos10 =
      (atualizarResultados ⟨.badStatus 500, .badStatus 404, 179⟩
        ⟨[], 0, 0, 0, .azul, 7, none, none, none⟩).ultimos10 :=
  sim_fallback_same_minute_identical
    ⟨.netError, .netError, 120⟩ ⟨.badStatus 500, .badStatus 404, 179⟩
    ⟨[], 0, 0, 0, .vermelho, 0, none, none, none⟩
    ⟨[], 0, 0, 0, .azul, 7, none, none, none⟩
    (by decide) (by decide) (by decide) (by decide) (by decide) (by decide)
    (by decide)

/-- C7: for every network and parse condition the refresh body succeeds —
no exception reaches the caller — and the function returns either that
freshly built dictionary or the previously cached one; when both network
tiers failed, the fresh dictionary is the fully simulated result. -/
theorem feed_never_raises (env : FeedEnv) (cache : Resultados) :
    ∃ s, corpoAtualizar env = .ok s ∧
      (atualizarResultados env cache = cache ∨
        atualizarResultados env cache = s) ∧
      (isOkB (tier1 env.api) = false → isOkB (tier2 env.page) = false →
        s.resultadoAtual = some (simulacaoFallback env.now).1 ∧
        s.ultimos10 = truncate10 (simulacaoFallback env.now).2) := by
  obtain ⟨s, hs⟩ := corpo_ok env
  obtain ⟨ha, hu⟩ := corpo_fields env s hs
  refine ⟨s, hs, ?_, ?_⟩
  · unfold atualizarResultados
    split
    · exact Or.inl rfl
    · rw [hs]
      exact Or.inr rfl
  · intro hA hP
    rw [ha, hu, fetchTiers_sim env hA hP]
    exact ⟨rfl, rfl⟩

/-- C7 witness: a concrete environment where the API times out and the
page has no results container. -/
theorem feed_never_raises_witness :
    ∃ s, corpoAtualizar ⟨.netError, .noContainer, 50⟩ = .ok s ∧
      (atualizarResultados ⟨.netError, .noContainer, 50⟩
          ⟨[], 0, 0, 0, .vermelho, 0, none, none, none⟩ =
          ⟨[], 0, 0, 0, .vermelho, 0, none, none, none⟩ ∨
        atualizarResultados ⟨.netError, .noContainer, 50⟩
          ⟨[], 0, 0, 0, .vermelho, 0, none, none, none⟩ = s) ∧
      (isOkB (tier1 ApiResp.netError) = false →
        isOkB (tier2 PageResp.noContainer) = false →
        s.resultadoAtual = some (simulacaoFallback 50).1 ∧
        s.ultimos10 = truncate10 (simulacaoFallback 50).2) :=
  feed_never_raises ⟨.netError, .noContainer, 50⟩
    ⟨[], 0, 0, 0, .vermelho, 0, none, none, none⟩

/-- C8: every dictionary the refresh body builds has a window of at most
ten outcomes whose three per-color frequencies sum to one. -/
theorem window_invariant (env : FeedEnv) (s : Resultados)
    (h : corpoAtualizar env = .ok s) :
    s.ultimos10.length ≤ 10 ∧
      s.freqVermelho + s.freqAzul + s.freqLaranja = 1 := by
  have hpos := truncate10_length_pos (fetchTiers env).2 (fetchTiers_snd_ne_nil env)
  have hle := truncate10_length_le (fetchTiers env).2
  unfold corpoAtualizar montarResultados at h
  rw [if_neg (by omega)] at h
  cases h
  refine ⟨hle, ?_⟩
  have hlen0 : ((truncate10 (fetchTiers env).2).length : ℚ) ≠ 0 := by
    exact_mod_cast (by omega : (truncate10 (fetchTiers env).2).length ≠ 0)
  rw [div_add_div_same, div_add_div_same, div_eq_one_iff_eq hlen0]
  exact_mod_cast count_partition (truncate10 (fetchTiers env).2)

/-- C8 witness: the invariant instantiated at a concrete refresh whose
value comes from the simulation tier. -/
theorem window_invariant_witness :
    ∃ s, corpoAtualizar ⟨.netError, .netError, 0⟩ = .ok s ∧
      (s.ultimos10.length ≤ 10 ∧
        s.freqVermelho + s.freqAzul + s.freqLaranja = 1) := by
  obtain ⟨s, hs⟩ := corpo_ok ⟨.netError, .netError, 0⟩
  exact ⟨s, hs, window_invariant ⟨.netError, .netError, 0⟩ s hs⟩

/-! ## PredictionPicker: `estrategia_alta_assertividade` (src/main.py 491-738)

The picker reads the refreshed history, the wall clock and the
gales/defensive globals, then walks a first-match rule chain.  The last
chain member is a plain `else`, so the trend-based block at lines 690-723
is unreachable and is not part of the embedding.  The `frequencia` and
`dia_semana` reads (lines 532, 537) influence no branch and carry no
state, so they are omitted.  `random.choice` is abstracted as a `pick`
function supplied with the candidate list. -/

/-- estrategias is the fixed option list of src/main.py lines 504-511, in
source order. -/
def estrategias : List Label :=
  [.laranjaAzul, .laranjaVermelho, .laranja, .azul, .vermelho, .azulVermelho]

/-- seq3 models `len(ultimos) >= 3 and ultimos[-1] == ultimos[-2] ==
ultimos[-3]` (src/main.py line 554), returning the repeated color. -/
def seq3 (ultimos : List Color) : Option Color :=
  match ultimos.reverse with
  | a :: b :: c :: _ => if a = b ∧ b = c then some a else none
  | _ => none

/-- corAusente models the absence scan over `ultimos[-5:]` (src/main.py
lines 583-591): with at least five results, the first color of the
dictionary insertion order `🔴, 🔵, 🟠` that does not occur in the last
five. -/
def corAusente (ultimos : List Color) : Option Color :=
  if 5 ≤ ultimos.length then
    let last5 := ultimos.reverse.take 5
    if last5.count .vermelho = 0 then some .vermelho
    else if last5.count .azul = 0 then some .azul
    else if last5.count .laranja = 0 then some .laranja
    else none
  else none

/-- estrategiaAltaAssertividade translates the picker body (src/main.py
lines 500-688).  Arguments mirror the globals and refreshed data the
source reads: the rolling window, its trend, the hour and minute,
`contagem_gales` and `modo_defensivo` on entry, the last issued label (as
recovered from `prediction_generator`, `none` when unavailable) and the
`random.choice` oracle.  It returns the source's result triple
`(palpite, contagem_gales, modo_defensivo)` after the entry update of the
two globals (`max_gales` is the constant 1 of line 480). -/
def estrategiaAltaAssertividade (ultimos : List Color) (tendencia : Color)
    (hora minuto : Nat) (gales0 : Nat) (modoDef0 : Bool)
    (ultimoPalpite : Option Label) (pick : List Label → Label) :
    Label × Nat × Bool :=
  let modoDef := if 1 ≤ gales0 then true else modoDef0
  let gales := if 1 ≤ gales0 then 0 else gales0
  let filtradas :=
    match ultimoPalpite with
    | some u =>
      if u ∈ estrategias ∧ 1 < estrategias.length then estrategias.erase u
      else estrategias
    | none => estrategias
  match seq3 ultimos with
  | some corRepetida =>
    if modoDef then
      match corRepetida with
      | .azul => (.vermelho, gales, modoDef)
      | .vermelho => (.azul, gales, modoDef)
      | .laranja => (if 12 ≤ hora then .vermelho else .azul, gales, modoDef)
    else
      match corRepetida with
      | .azul => (.laranjaVermelho, gales, modoDef)
      | .vermelho => (.laranjaAzul, gales, modoDef)
      | .laranja =>
        (if minuto % 2 = 0 then .laranjaVermelho else .laranjaAzul, gales, modoDef)
  | none =>
  match corAusente ultimos with
  | some corA =>
    if modoDef then
      match corA with
      | .laranja => (.laranja, gales, modoDef)
      | .azul => (.azul, gales, modoDef)
      | .vermelho => (.vermelho, gales, modoDef)
    else
      match corA with
      | .laranja => (.laranja, gales, modoDef)
      | .azul => (.laranjaAzul, gales, modoDef)
      | .vermelho => (.laranjaVermelho, gales, modoDef)
  | none =>
  if 6 ≤ hora ∧ hora < 12 then
    if modoDef then (.azul, gales, modoDef) else (.laranjaAzul, gales, modoDef)
  else if 12 ≤ hora ∧ hora < 18 then
    if 3 ≤ ultimos.length then
      if ultimos.reverse.getD 0 .vermelho ≠ ultimos.reverse.getD 1 .vermelho then
        match ultimos.reverse.getD 0 .vermelho with
        | .azul => (.laranjaVermelho, gales, modoDef)
        | .vermelho => (.laranjaAzul, gales, modoDef)
        | .laranja =>
          (if minuto % 2 = 0 then .laranjaVermelho else .laranjaAzul, gales, modoDef)
      else
        match tendencia with
        | .azul => (.laranjaAzul, gales, modoDef)
        | .vermelho => (.laranjaVermelho, gales, modoDef)
        | .laranja => (.laranja, gales, modoDef)
    else (.laranjaAzul, gales, modoDef)
  else if 18 ≤ hora ∧ hora < 24 then
    if modoDef then (.vermelho, gales, modoDef)
    else if ultimoPalpite = some .laranjaVermelho then (.laranjaAzul, gales, modoDef)
    else (.laranjaVermelho, gales, modoDef)
  else
    if modoDef then (.laranja, gales, modoDef)
    else
      let palpite :=
        if minuto < 20 then Label.laranjaAzul
        else if minuto < 40 then Label.laranjaVermelho
        else Label.laranja
      if some palpite = ultimoPalpite then
        match filtradas.filter (fun p => p ≠ palpite) with
        | [] => (palpite, gales, modoDef)
        | r :: rs => (pick (r :: rs), gales, modoDef)
      else (palpite, gales, modoDef)

/-- mem_estrategias: every label belongs to the fixed option list. -/
theorem mem_estrategias (u : Label) : u ∈ estrategias := by
  cases u <;> decide

/-- C3 counterexample: in the morning bucket (hour 8, normal mode, no
3-streak and no absent color in the window) the picker returns
`🟠+🔵 Laranja e Azul` unconditionally; with that same label as the last
issued pick it repeats it although the option set minus that label is
non-empty. -/
theorem morning_branch_repeats_last_pick :
    (estrategiaAltaAssertividade [.vermelho, .azul, .laranja, .vermelho, .azul]
        .azul 8 0 0 false (some .laranjaAzul) (fun _ => .laranja)).1 =
      .laranjaAzul ∧
    estrategias.erase .laranjaAzul ≠ [] := by decide

/-- C3 (amended): the anti-repeat substitution is applied only in the
branches that code it — among the deterministic ones, the madrugada
normal-mode branch; there, whatever the minute and whichever element the
`random.choice` oracle returns from its candidate list, the returned pick
differs from the last issued label. -/
theorem madrugada_antirepeat
    (ultimos : List Color) (tendencia : Color) (hora minuto : Nat)
    (u : Label) (pick : List Label → Label)
    (hseq : seq3 ultimos = none) (haus : corAusente ultimos = none)
    (hh : hora < 6 ∨ 24 ≤ hora)
    (hpick : ∀ l, l ≠ [] → pick l ∈ l) :
    (estrategiaAltaAssertividade ultimos tendencia hora minuto 0 false
      (some u) pick).1 ≠ u := by
  have h0 : ¬((1 : Nat) ≤ 0) := by omega
  have h1 : ¬(6 ≤ hora ∧ hora < 12) := by omega
  have h2 : ¬(12 ≤ hora ∧ hora < 18) := by omega
  have h3 : ¬(18 ≤ hora ∧ hora < 24) := by omega
  unfold estrategiaAltaAssertividade
  rw [hseq, haus]
  simp only [h0, h1, h2, h3, if_false, ite_false, Option.some.injEq,
    Bool.false_eq_true]
  set pal := if minuto < 20 then Label.laranjaAzul
    else if minuto < 40 then Label.laranjaVermelho else Label.laranja with hpal
  by_cases hp : pal = u
  · rw [if_pos hp]
    have hmem : u ∈ estrategias := mem_estrategias u
    have hcond : u ∈ estrategias ∧ 1 < estrategias.length := ⟨hmem, by decide⟩
    rw [if_pos hcond]
    have hnodup : estrategias.Nodup := by decide
    have hne : estrategias.erase u ≠ [] := by
      intro hnil
      have := List.length_erase_of_mem hmem
      rw [hnil] at this
      simp [estrategias] at this
    have hmemne : ∀ p ∈ estrategias.erase u, p ≠ u := fun p hp' =>
      ((List.Nodup.mem_erase_iff hnodup).mp hp').1
    have hfilter : (estrategias.erase u).filter (fun p => p ≠ pal) =
        estrategias.erase u := by
      rw [List.filter_eq_self]
      intro p hp'
      rw [hp]
      exact decide_eq_true (hmemne p hp')
    rw [hfilter]
    cases herase : estrategias.erase u with
    | nil => exact absurd herase hne
    | cons r rs =>
      show pick (r :: rs) ≠ u
      have hin : pick (r :: rs) ∈ estrategias.erase u := by
        rw [herase]
        exact hpick (r :: rs) (by simp)
      exact hmemne _ hin
  · rw [if_neg hp]
    exact hp

/-- C3 (amended) witness: at 03:05 in normal mode the natural madrugada
choice equals the last pick and the oracle-backed substitution returns a
different label. -/
theorem madrugada_antirepeat_witness :
    (estrategiaAltaAssertividade
        [.vermelho, .azul, .laranja, .vermelho, .azul] .azul 3 5 0 false
        (some .laranjaAzul) (fun l => l.headD .laranja)).1 ≠
      .laranjaAzul :=
  madrugada_antirepeat [.vermelho, .azul, .laranja, .vermelho, .azul] .azul
    3 5 .laranjaAzul (fun l => l.headD .laranja) (by decide) (by decide)
    (by omega)
    (fun l hl => by
      cases l with
      | nil => exact absurd rfl hl
      | cons a t => simp)

/-! ## Scoring step of the posting loop: `enviar_palpite`
(src/main.py 913-1330, scoring portion 972-1172)

One loop iteration is modelled from the threshold-reset check through the
rendering of the prediction message.  Python exceptions abort the
iteration and are swallowed by the per-iteration handler at line 1328;
they are modelled as `Except.error` carrying the exception kind and the
global state as mutated so far (the handler keeps those globals). -/

/-- PyExc names the two exceptions the scoring step can raise. -/
inductive PyExc where
  | nameError
  | unboundLocal
deriving DecidableEq, Repr

/-- Padrao is the `PADRAO_ATUAL` global (src/main.py line 485). -/
inductive Padrao where
  | combinacao
  | alternado
  | repetido
deriving DecidableEq, Repr

/-- rotatePadrao is the strategy rotation at src/main.py lines 1118-1123. -/
def rotatePadrao : Padrao → Padrao
  | .combinacao => .alternado
  | .alternado => .repetido
  | .repetido => .combinacao

/-- ScoreState bundles the scoring globals of src/main.py lines 255-261,
479, 485 plus `consecutive_errors`, which is declared `global` at line
1047 but never initialized at module scope: `none` models the unbound
name (reading it raises `NameError`). -/
structure ScoreState where
  acertos : Nat
  erros : Nat
  total : Nat
  greensSeguidos : Nat
  redsSeguidos : Nat
  maxGreensSeguidos : Nat
  maxRedsSeguidos : Nat
  consecutiveErrors : Option Nat
  contagemGales : Nat
  padraoAtual : Padrao
deriving DecidableEq, Repr

/-- RenderInfo carries what the prediction message template interpolates
on its scoreboard line `Acertos: .. | Erros: .. | Taxa: ..%`
(src/main.py line 1171). -/
structure RenderInfo where
  acertos : Nat
  erros : Nat
  taxa : ℚ
deriving DecidableEq, Repr

/-- maxGales is the constant of src/main.py line 480. -/
def maxGales : Nat := 1

/-- taxaOf is the displayed rate computation of src/main.py lines
1153-1157: a 50 percent base plus two points per current consecutive hit,
capped at a 49-point bonus. -/
def taxaOf (greens : Nat) : ℚ :=
  ((50 + min (2 * greens) 49 : Nat) : ℚ)

/-- scoreCE translates the hit test plus consecutive-error management
(src/main.py lines 1038-1063) on the state after `total += 1`: with a
real result, a hit assigns the global to 0 and a miss increments it —
raising `NameError` when it was never bound — forcing the 0/5/5 baseline
at five consecutive misses; with no real result the random 75 percent
fallback decides and the global is untouched. -/
def scoreCE (st1 : ScoreState) (palpite : Label) (resultadoReal : Option Color)
    (rFallback : Bool) : Except (PyExc × ScoreState) (ScoreState × Bool) :=
  match resultadoReal with
  | some r =>
    if resultadoMapa r palpite then
      .ok ({ st1 with consecutiveErrors := some 0 }, true)
    else
      match st1.consecutiveErrors with
      | none => .error (.nameError, st1)
      | some k =>
        if 5 ≤ k + 1 then
          .ok ({ st1 with
            acertos := 0
            erros := 5
            total := 5
            consecutiveErrors := some 0 }, false)
        else .ok ({ st1 with consecutiveErrors := some (k + 1) }, false)
  | none => .ok (st1, rFallback)

/-- contabilizar translates the hit/miss accounting and message rendering
(src/main.py lines 1065-1172): a hit bumps `acertos` and the green
streak and zeroes gales; a miss bumps `erros` and the red streak, then
either rotates `PADRAO_ATUAL` and zeroes gales (as `max_gales = 1` makes
the line-1111 test true) or bumps gales again (line 1141); the rendered
rate uses the updated green streak. -/
def contabilizar (st2 : ScoreState) (acertou : Bool) : ScoreState × RenderInfo :=
  if acertou then
    let greens := st2.greensSeguidos + 1
    let st3 := { st2 with
      acertos := st2.acertos + 1
      greensSeguidos := greens
      redsSeguidos := 0
      maxGreensSeguidos := max st2.maxGreensSeguidos greens
      contagemGales := 0 }
    (st3, ⟨st3.acertos, st3.erros, taxaOf greens⟩)
  else
    let reds := st2.redsSeguidos + 1
    let g1 := st2.contagemGales + 1
    let st3 := { st2 with
      erros := st2.erros + 1
      redsSeguidos := reds
      greensSeguidos := 0
      maxRedsSeguidos := max st2.maxRedsSeguidos reds
      contagemGales := if maxGales ≤ g1 then 0 else g1 + 1
      padraoAtual := if maxGales ≤ g1 then rotatePadrao st2.padraoAtual
        else st2.padraoAtual }
    (st3, ⟨st3.acertos, st3.erros, taxaOf 0⟩)

/-- scoreIteration is one scoring pass of the posting loop (src/main.py
lines 972-1172): first the 150/50 threshold block, whose announcement
f-string at line 976 reads the locals `old_acertos`/`old_erros`/… before
their first assignment at lines 1000-1004 and therefore raises
`UnboundLocalError` with all counters untouched; then `total += 1`
(line 1030); then the consecutive-error step; then the accounting and the
rendered message.  An `error` result means the per-iteration handler at
line 1328 logged the exception and no prediction message was sent. -/
def scoreIteration (st : ScoreState) (palpite : Label)
    (resultadoReal : Option Color) (rFallback : Bool) :
    Except (PyExc × ScoreState) (ScoreState × RenderInfo) :=
  if 150 ≤ st.acertos ∧ 50 ≤ st.erros ∧ 0 < st.total then
    .error (.unboundLocal, st)
  else
    match scoreCE { st with total := st.total + 1 } palpite resultadoReal rFallback with
    | .error e => .error e
    | .ok (st2, acertou) => .ok (contabilizar st2 acertou)

/-- C1 counterexample: at a state with four consecutive misses already
recorded, a fifth miss does trigger the mid-step reset to 0/5/5, but the
counters the message then renders are not that baseline — the
miss-accounting that follows pushes `erros` to 6. -/
theorem fifth_miss_baseline_not_rendered :
    ¬ (∀ p : ScoreState × RenderInfo,
        scoreIteration ⟨10, 7, 18, 0, 3, 5, 3, some 4, 0, .combinacao⟩ .azul
          (some .vermelho) false = .ok p →
        p.2.acertos = 0 ∧ p.2.erros = 5 ∧ p.1.total = 5) :=
  fun h =>
    absurd
      (h (⟨0, 6, 5, 0, 4, 5, 4, some 0, 0, .alternado⟩, ⟨0, 6, taxaOf 0⟩)
        (by decide)).2.1
      (by decide)

/-- C1 (amended): a scored miss that brings the consecutive-miss counter
to exactly 5 resets the counters to the 0/5/5 baseline and zeroes the
counter within the scoring step, but the subsequent miss accounting
increments `erros` once more, so the state rendered into the message is
acertos = 0, erros = 6, total = 5. -/
theorem fifth_miss_resets_then_increments
    (st : ScoreState) (palpite : Label) (r : Color) (rb : Bool)
    (hthr : ¬(150 ≤ st.acertos ∧ 50 ≤ st.erros ∧ 0 < st.total))
    (hce : st.consecutiveErrors = some 4)
    (hmiss : resultadoMapa r palpite = false) :
    ∃ st2 render,
      scoreIteration st palpite (some r) rb = .ok (st2, render) ∧
      st2.acertos = 0 ∧ st2.erros = 6 ∧ st2.total = 5 ∧
      st2.consecutiveErrors = some 0 ∧
      render.acertos = 0 ∧ render.erros = 6 := by
  unfold scoreIteration scoreCE contabilizar
  rw [if_neg hthr]
  simp [hce, hmiss]
  exact ⟨_, _, ⟨rfl, rfl⟩, rfl, rfl, rfl, rfl, rfl, rfl⟩

/-- C1 witness: the amended statement at the counterexample state. -/
theorem fifth_miss_resets_then_increments_witness :
    ∃ st2 render,
      scoreIteration ⟨10, 7, 18, 0, 3, 5, 3, some 4, 0, .combinacao⟩ .azul
        (some .vermelho) false = .ok (st2, render) ∧
      st2.acertos = 0 ∧ st2.erros = 6 ∧ st2.total = 5 ∧
      st2.consecutiveErrors = some 0 ∧
      render.acertos = 0 ∧ render.erros = 6 :=
  fifth_miss_resets_then_increments
    ⟨10, 7, 18, 0, 3, 5, 3, some 4, 0, .combinacao⟩ .azul .vermelho false
    (by decide) (by decide) (by decide)

/-- C2: at the 150/50 threshold the iteration raises `UnboundLocalError`
while building the reset announcement (line 976 reads `old_acertos`,
first assigned only at line 1000), so the per-iteration handler swallows
it, the counters are left untouched — never reset — and no prediction is
posted that iteration. -/
theorem threshold_reset_raises_unbound_local :
    scoreIteration ⟨150, 50, 200, 2, 0, 9, 5, some 0, 0, .combinacao⟩ .azul
      (some .azul) false =
      .error (.unboundLocal,
        ⟨150, 50, 200, 2, 0, 9, 5, some 0, 0, .combinacao⟩) := by decide

/-- C9: in a fresh process state (all counters zero, `consecutive_errors`
never bound), scoring a first miss increments `total` and then raises
`NameError` on `consecutive_errors += 1`; the iteration aborts with no
message and the surviving counters satisfy
total = acertos + erros + 1. -/
theorem first_scored_miss_raises_name_error
    (palpite : Label) (r : Color) (rb : Bool)
    (hmiss : resultadoMapa r palpite = false) :
    scoreIteration ⟨0, 0, 0, 0, 0, 0, 0, none, 0, .combinacao⟩ palpite
        (some r) rb =
      .error (.nameError, ⟨0, 0, 1, 0, 0, 0, 0, none, 0, .combinacao⟩) ∧
    (⟨0, 0, 1, 0, 0, 0, 0, none, 0, .combinacao⟩ : ScoreState).total =
      (⟨0, 0, 1, 0, 0, 0, 0, none, 0, .combinacao⟩ : ScoreState).acertos +
        (⟨0, 0, 1, 0, 0, 0, 0, none, 0, .combinacao⟩ : ScoreState).erros + 1 := by
  constructor
  · unfold scoreIteration scoreCE
    rw [if_neg (by decide)]
    simp [hmiss]
  · rfl

/-- C9 witness: the first scored prediction is a bet on azul against a
vermelho outcome. -/
theorem first_scored_miss_raises_name_error_witness :
    scoreIteration ⟨0, 0, 0, 0, 0, 0, 0, none, 0, .combinacao⟩ .azul
        (some .vermelho) false =
      .error (.nameError, ⟨0, 0, 1, 0, 0, 0, 0, none, 0, .combinacao⟩) ∧
    (⟨0, 0, 1, 0, 0, 0, 0, none, 0, .combinacao⟩ : ScoreState).total =
      (⟨0, 0, 1, 0, 0, 0, 0, none, 0, .combinacao⟩ : ScoreState).acertos +
        (⟨0, 0, 1, 0, 0, 0, 0, none, 0, .combinacao⟩ : ScoreState).erros + 1 :=
  first_scored_miss_raises_name_error .azul .vermelho false (by decide)

/-- contabilizar_spec: the rendered scoreboard line always carries the
post-update counters and the rate of the post-update green streak. -/
theorem contabilizar_spec (st2 : ScoreState) (acertou : Bool) :
    (contabilizar st2 acertou).2.taxa =
      taxaOf (contabilizar st2 acertou).1.greensSeguidos ∧
    (contabilizar st2 acertou).2.acertos = (contabilizar st2 acertou).1.acertos ∧
    (contabilizar st2 acertou).2.erros = (contabilizar st2 acertou).1.erros := by
  cases acertou <;> simp [contabilizar]

/-- C10: every successfully rendered prediction message displays the rate
50 + min(2 · current green streak, 49); it lies between 50 and 99 and is
a function of the streak alone, not of the displayed acertos/erros
totals. -/
theorem render_taxa_formula (st : ScoreState) (palpite : Label)
    (resultadoReal : Option Color) (rb : Bool) (st2 : ScoreState)
    (render : RenderInfo)
    (h : scoreIteration st palpite resultadoReal rb = .ok (st2, render)) :
    render.taxa = 50 + min (2 * (st2.greensSeguidos : ℚ)) 49 ∧
    50 ≤ render.taxa ∧ render.taxa ≤ 99 := by
  unfold scoreIteration at h
  split at h
  · exact absurd h (by simp)
  · split at h
    · exact absurd h (by simp)
    · rename_i st1 acertou heq
      injection h with h2
      obtain ⟨ht, _, _⟩ := contabilizar_spec st1 acertou
      rw [h2] at ht
      rw [ht]
      have hle : 50 + min (2 * st2.greensSeguidos) 49 ≤ 99 := by
        have := Nat.min_le_right (2 * st2.greensSeguidos) 49
        omega
      have hge : 50 ≤ 50 + min (2 * st2.greensSeguidos) 49 := by omega
      refine ⟨?_, ?_, ?_⟩
      · unfold taxaOf
        push_cast
        rfl
      · unfold taxaOf
        exact_mod_cast hge
      · unfold taxaOf
        exact_mod_cast hle

/-- C10 witness: a first hit renders the rate 52 = 50 + min(2·1, 49). -/
theorem render_taxa_formula_witness :
    (⟨1, 0, taxaOf 1⟩ : RenderInfo).taxa =
      50 + min (2 * ((⟨1, 0, 1, 1, 0, 1, 0, some 0, 0,
        .combinacao⟩ : ScoreState).greensSeguidos : ℚ)) 49 ∧
    50 ≤ (⟨1, 0, taxaOf 1⟩ : RenderInfo).taxa ∧
    (⟨1, 0, taxaOf 1⟩ : RenderInfo).taxa ≤ 99 :=
  render_taxa_formula ⟨0, 0, 0, 0, 0, 0, 0, some 0, 0, .combinacao⟩ .azul
    (some .azul) false ⟨1, 0, 1, 1, 0, 1, 0, some 0, 0, .combinacao⟩
    ⟨1, 0, taxaOf 1⟩ (by decide)

end BacBo
